import Mathlib

/-!
Shallow embedding of the Veridex Colosseum hackathon agent's payment
negotiation core:

* the merchant's x402 paywall middleware and credential store
  (src/merchant/src/server.ts), and
* the agent-side x402 negotiator, the "Veridex Session Key x402 flow"
  of SolanaAgent.x402Fetch (src/agent solana-agent.ts).

USD amounts and token amounts are modelled as rationals / integers;
JavaScript truthiness of the relevant values (empty string and the
number 0 are falsy) is modelled explicitly where the source relies on
it.  Date.now() is passed in as an explicit clock value.
-/

namespace VeridexPay

/-- JavaScript `a || d` for an optional string field: an absent field and
the empty string are falsy and fall through to the default. -/
def jsOrStr (o : Option String) (d : String) : String :=
  match o with
  | some s => if s = "" then d else s
  | none => d

/-- JavaScript `Math.round`: rounds half away from zero toward positive
infinity, i.e. `floor (x + 1/2)`. -/
def jsRound (q : Rat) : Int :=
  Int.floor (q + 1/2)

/-! ## Wire model of the x402 payment requirement

Mirrors the JSON object built by `x402Paywall` in src/merchant/src/server.ts
(lines 169-185) and consumed by the agent.  Every field the agent reads
with `?.` is optional. `maxAmountRequired` is a decimal-integer string on
the wire; it is modelled by its integer value (`none` = field absent). -/

structure WireExtra where
  name : Option String
  priceUSD : Option Rat
  resource : Option String
deriving DecidableEq

structure WireRequirement where
  scheme : Option String
  network : Option String
  maxAmountRequired : Option Int
  asset : Option String
  payTo : Option String
  description : Option String
  extra : Option WireExtra
deriving DecidableEq

/-- A 402 body.  The agent reads `paymentTerms.paymentRequirements?.[0] ||
paymentTerms.accepts?.[0]`; an absent array is modelled as `[]`. -/
structure WireTerms where
  paymentRequirements : List WireRequirement
  accepts : List WireRequirement
deriving DecidableEq

/-- The body shape the merchant emits: `{ paymentRequirements: [...] }`. -/
def wireBody (reqs : List WireRequirement) : WireTerms :=
  { paymentRequirements := reqs, accepts := [] }

/-- The alternative top-level shape in circulation: `{ accepts: [...] }`. -/
def wireAccepts (reqs : List WireRequirement) : WireTerms :=
  { paymentRequirements := [], accepts := reqs }

/-! ## Merchant tool registry (src/merchant/src/server.ts lines 105-133) -/

structure PaidTool where
  id : String
  name : String
  description : String
  endpoint : String
  method : String
  priceUSD : Rat
  category : String
deriving DecidableEq

def tools : List PaidTool :=
  [ { id := "sol-price", name := "SOL Price Feed",
      description := "Real-time SOL/USD price from Pyth Network oracle",
      endpoint := "/api/v1/market/sol", method := "GET",
      priceUSD := 1/1000, category := "market-data" },
    { id := "token-prices", name := "Top Solana Tokens",
      description := "Price data for top 10 Solana tokens (SOL, JUP, RAY, BONK, etc.)",
      endpoint := "/api/v1/market/tokens", method := "GET",
      priceUSD := 2/1000, category := "market-data" },
    { id := "market-analysis", name := "AI Market Analysis",
      description := "AI-generated market analysis for a given Solana token or sector",
      endpoint := "/api/v1/analyze", method := "POST",
      priceUSD := 5/1000, category := "analysis" } ]

/-! ## Merchant x402 paywall (src/merchant/src/server.ts lines 145-205) -/

/-- The PaymentRequirement object the paywall builds for an unpaid request
(server.ts lines 169-185): `maxAmountRequired` is
`String(Math.round(priceUSD * 1_000_000))`, `description` is the tool's
name (`|| toolId`), and `extra` carries the tool name, the USD price and
the canonical resource URL. -/
def gateRequirement (priceUSD : Rat) (toolId recipient resource : String) : WireRequirement :=
  { scheme := some "exact"
    network := some "solana-devnet"
    maxAmountRequired := some (jsRound (priceUSD * 1000000))
    asset := some "USDC"
    payTo := some recipient
    description := some (jsOrStr ((tools.find? (fun t => t.id == toolId)).map (fun t => t.name)) toolId)
    extra := some
      { name := (tools.find? (fun t => t.id == toolId)).map (fun t => t.name)
        priceUSD := some priceUSD
        resource := some resource } }

/-- The proof-of-payment headers the paywall recognizes
(`payment-signature` / `x-payment-signature`, `x-ucp-payment-credential`,
`x-acp-payment-token`).  A header set to the empty string is falsy. -/
structure ProofHeaders where
  paymentSignature : Option String
  xPaymentSignature : Option String
  ucpCred : Option String
  acpToken : Option String
deriving DecidableEq

/-- JS truthiness of an optional header value. -/
def hdrTruthy (o : Option String) : Bool :=
  match o with
  | some s => s != ""
  | none => false

def noProofHeaders : ProofHeaders :=
  { paymentSignature := none, xPaymentSignature := none, ucpCred := none, acpToken := none }

/-- Outcome of one paywall middleware call: either `next()` is invoked
(the request is admitted, logging a payment activity with the detected
protocol), or a 402 challenge is returned carrying the requirement both
as the JSON body and, base64-encoded, in the PAYMENT-REQUIRED header
(`Buffer.from(JSON.stringify(body)).toString(base64)` round-trips, so the
header is modelled by the terms it decodes to). -/
inductive PaywallOutcome where
  | granted (protocol : String) (amountUSD : Rat)
  | challenge (status : Nat) (body : WireTerms) (header : WireTerms)
deriving DecidableEq

/-- `x402Paywall(priceUSD, toolId)` applied to one request
(server.ts lines 145-205). -/
def x402Paywall (priceUSD : Rat) (toolId : String) (recipient resource : String)
    (hdrs : ProofHeaders) : PaywallOutcome :=
  let paymentSig := hdrTruthy hdrs.paymentSignature || hdrTruthy hdrs.xPaymentSignature
  if paymentSig || hdrTruthy hdrs.ucpCred || hdrTruthy hdrs.acpToken then
    .granted (if paymentSig then "x402" else if hdrTruthy hdrs.ucpCred then "ucp" else "acp") priceUSD
  else
    let body := wireBody [gateRequirement priceUSD toolId recipient resource]
    .challenge 402 body body

def PaywallOutcome.isChallenge : PaywallOutcome → Bool
  | .challenge _ _ _ => true
  | .granted _ _ => false

/-! ## Agent-side decoding of a 402 body

solana-agent.ts, Step 2 of the session-key flow:
  const req = paymentTerms.paymentRequirements?.[0] || paymentTerms.accepts?.[0];
  const priceUSD = req?.extra?.priceUSD || (req?.maxAmountRequired ? Number(req.maxAmountRequired) / 1_000_000 : 0);
  const recipient = req?.payTo || unknown;  const network = req?.network || solana-devnet;
  const asset = req?.asset || USDC;  const maxAmount = req?.maxAmountRequired || 0. -/

structure DecodedTerms where
  priceUSD : Rat
  recipient : String
  network : String
  asset : String
  maxAmount : Int
deriving DecidableEq

/-- `paymentRequirements?.[0] || accepts?.[0]`: the first element of the
first non-empty array (an object is truthy, an absent element falsy). -/
def selectRequirement (t : WireTerms) : Option WireRequirement :=
  match t.paymentRequirements.head? with
  | some r => some r
  | none => t.accepts.head?

/-- The agent's extraction of payment terms from a 402 body.  A present
`extra.priceUSD` of 0 is falsy in JS and falls through to the
`maxAmountRequired` branch; a present `maxAmountRequired` is a non-empty
numeric string, hence truthy, so its value (possibly 0) divided by 10^6 is
used; with neither, the price is 0. -/
def decodeTerms (t : WireTerms) : DecodedTerms :=
  let req := selectRequirement t
  let hint : Option Rat := (req.bind (fun r => r.extra)).bind (fun e => e.priceUSD)
  let fallback : Rat :=
    match req.bind (fun r => r.maxAmountRequired) with
    | some m => (m : Rat) / 1000000
    | none => 0
  { priceUSD :=
      match hint with
      | some p => if p = 0 then fallback else p
      | none => fallback
    recipient := jsOrStr (req.bind (fun r => r.payTo)) "unknown"
    network := jsOrStr (req.bind (fun r => r.network)) "solana-devnet"
    asset := jsOrStr (req.bind (fun r => r.asset)) "USDC"
    maxAmount := (req.bind (fun r => r.maxAmountRequired)).getD 0 }

/-! ## Agent-side negotiator: the Veridex session-key x402 flow

`SolanaAgent.x402Fetch`, Path 2 (solana-agent.ts): initial request; on a
402, decode the terms, check the per-transaction limit and the daily
remaining budget, sign a payment intent with the external signer, retry
the request once with payment headers, and on a non-402 OK retry record
the spend in `totalSpentUSD` and return success.  The network, the
external signer and the clock are inputs of the embedding. -/

/-- Configuration fields of `SolanaAgentConfig` that the session-key flow
reads (the wallet usernames, relayer fields and passkey coordinates do
not influence the modelled control flow). -/
structure SolanaAgentConfig where
  keyHash : Option String
  dailyLimitUSD : Rat
  perTransactionLimitUSD : Rat
deriving DecidableEq

/-- Outcome of the external signer call
(`awClient.signMessage(solana, ...)`): a signature, or a thrown error. -/
inductive SignerOutcome where
  | success (signature : String)
  | failure (message : String)
deriving DecidableEq

/-- The response to the initial request: either a non-402 status (with its
`ok` flag), or a 402 carrying a payment-terms body. -/
inductive InitialResponse where
  | non402 (status : Nat) (ok : Bool)
  | challenge (terms : WireTerms)
deriving DecidableEq

/-- The `X402FetchResult` fields returned by the flow (body and duration
omitted: the body is the fetched payload or the challenge terms, and
`duration` is always 0 in this path). -/
structure X402Result where
  success : Bool
  status : Nat
  paid : Bool
  attempts : Nat
deriving DecidableEq

/-- The result of one negotiation together with the observable side
effects: how many times the external signer was invoked, how many retry
requests were issued, and the agent's `totalSpentUSD` afterwards. -/
structure NegotiationOutcome where
  result : X402Result
  signerCalls : Nat
  retryCalls : Nat
  totalSpentUSD : Rat
deriving DecidableEq

/-- The terminal unpaid result `{ success: false, response: { status: 402,
body: paymentTerms }, paid: false, attempts: 1 }` used for limit
rejections, signing failures, zero-price terms and a failed retry. -/
def unpaidResult : X402Result :=
  { success := false, status := 402, paid := false, attempts := 1 }

/-- One run of the session-key x402 flow of `SolanaAgent.x402Fetch`.
`totalSpentUSD` is the agent's running spend before the call;
`sessionRemaining` is `getSessionStatus()?.remainingDailyLimitUSD`
(`none` when no Veridex SDK session is configured, the default in this
repository); `signer` and `retryOk`/`retryStatus` describe the external
signer and the response to the single retry. -/
def x402Fetch (cfg : SolanaAgentConfig) (totalSpentUSD : Rat)
    (sessionRemaining : Option Rat) (initial : InitialResponse)
    (signer : SignerOutcome) (retryOk : Bool) (retryStatus : Nat) : NegotiationOutcome :=
  match initial with
  | .non402 status ok =>
    { result := { success := ok, status := status, paid := false, attempts := 1 }
      signerCalls := 0, retryCalls := 0, totalSpentUSD := totalSpentUSD }
  | .challenge terms =>
    let d := decodeTerms terms
    let dailyRemaining := sessionRemaining.getD cfg.dailyLimitUSD
    let perTxLimit := cfg.perTransactionLimitUSD
    if d.priceUSD > perTxLimit then
      { result := unpaidResult, signerCalls := 0, retryCalls := 0, totalSpentUSD := totalSpentUSD }
    else if d.priceUSD > dailyRemaining then
      { result := unpaidResult, signerCalls := 0, retryCalls := 0, totalSpentUSD := totalSpentUSD }
    else if d.priceUSD > 0 then
      match signer with
      | .failure _ =>
        { result := unpaidResult, signerCalls := 1, retryCalls := 0, totalSpentUSD := totalSpentUSD }
      | .success _ =>
        if retryOk then
          { result := { success := true, status := retryStatus, paid := true, attempts := 2 }
            signerCalls := 1, retryCalls := 1, totalSpentUSD := totalSpentUSD + d.priceUSD }
        else
          { result := unpaidResult, signerCalls := 1, retryCalls := 1, totalSpentUSD := totalSpentUSD }
    else
      { result := unpaidResult, signerCalls := 0, retryCalls := 0, totalSpentUSD := totalSpentUSD }

/-- A sequence of negotiations against 402 challenges, threading the
agent's `totalSpentUSD`, with no Veridex SDK session, a succeeding signer
and an OK retry each time (every payment settles when the limit checks
pass).  Returns the final spend and whether every negotiation returned
success. -/
def runSettleAll (cfg : SolanaAgentConfig) : List WireTerms → Rat → Rat × Bool
  | [], spent => (spent, true)
  | t :: ts, spent =>
    let o := x402Fetch cfg spent none (.challenge t) (.success "sig") true 200
    let rest := runSettleAll cfg ts o.totalSpentUSD
    (rest.1, o.result.success && rest.2)

/-! ## Merchant credential store (src/merchant/src/server.ts lines 260-445)

File persistence (load/save on every mutation) is I/O around the pure
state transitions modelled here; `Date.now()` is an explicit `now`
argument.  An absent JSON sub-field is modelled as the empty string,
matching the truthiness checks of the routes. -/

structure WalletInfo where
  credentialId : String
  publicKeyX : String
  publicKeyY : String
  keyHash : String
deriving DecidableEq

structure SessionInfo where
  publicKey : String
  encryptedPrivateKey : String
  keyHash : String
  dailyLimitUSD : Rat
  perTransactionLimitUSD : Rat
  expiryHours : Nat
  allowedChains : List Nat
deriving DecidableEq

structure AgentCredentials where
  id : String
  wallet : WalletInfo
  session : SessionInfo
  createdAt : Nat
  revokedAt : Option Nat
deriving DecidableEq

structure CredentialStore where
  credentials : List AgentCredentials
  activeId : Option String
deriving DecidableEq

def emptyStore : CredentialStore :=
  { credentials := [], activeId := none }

/-- HTTP error outcomes of the credential routes. -/
inductive StoreError where
  | invalidInput
  | notFound
  | credentialRevoked
deriving DecidableEq

/-- `getActiveCredentials()`: none when `activeId` is unset, the id is not
found, or the found credential is revoked.  (Ids are non-empty in every
reachable store, so the JS falsiness check on `activeId` is `isNone`.) -/
def getActiveCredentials (s : CredentialStore) : Option AgentCredentials :=
  match s.activeId with
  | none => none
  | some aid =>
    match s.credentials.find? (fun c => c.id == aid) with
    | none => none
    | some c => if c.revokedAt.isSome then none else some c

/-- The `findIndex`-replace-else-push of POST /api/v1/agent/credentials
(server.ts lines 336-348): replace the first credential with the same id,
else append at the end. -/
def upsertById : List AgentCredentials → AgentCredentials → List AgentCredentials
  | [], cred => [cred]
  | c :: cs, cred => if c.id == cred.id then cred :: cs else c :: upsertById cs cred

/-- POST /api/v1/agent/credentials: 400 unless both `wallet.credentialId`
and `session.publicKey` are truthy; otherwise upsert a fresh credential
keyed by `wallet.credentialId` (with `createdAt := now` and no
`revokedAt`) and make it the active one. -/
def postCredentials (s : CredentialStore) (wallet : WalletInfo) (session : SessionInfo)
    (now : Nat) : Except StoreError CredentialStore :=
  if wallet.credentialId = "" ∨ session.publicKey = "" then .error .invalidInput
  else
    let cred : AgentCredentials :=
      { id := wallet.credentialId, wallet := wallet, session := session
        createdAt := now, revokedAt := none }
    .ok { credentials := upsertById s.credentials cred, activeId := some wallet.credentialId }

/-- PUT /api/v1/agent/credentials/:id/activate: 404 if no credential has
the id, 400 if it is revoked, else switch `activeId` to it. -/
def activateCredential (s : CredentialStore) (id : String) : Except StoreError CredentialStore :=
  match s.credentials.find? (fun c => c.id == id) with
  | none => .error .notFound
  | some c =>
    if c.revokedAt.isSome then .error .credentialRevoked
    else .ok { s with activeId := some c.id }

/-- `active.revokedAt = Date.now()` mutates the object `find` returned,
i.e. the first list entry with that id. -/
def markFirstRevoked : List AgentCredentials → String → Nat → List AgentCredentials
  | [], _, _ => []
  | c :: cs, id, now =>
    if c.id == id then { c with revokedAt := some now } :: cs
    else c :: markFirstRevoked cs id now

/-- The re-election scan after a revocation:
`credentials.find(c => !c.revokedAt && c.id !== excluded)` — the FIRST
credential in storage order that is not revoked and has a different id. -/
def firstNonRevokedExcept (l : List AgentCredentials) (excluded : String) :
    Option AgentCredentials :=
  l.find? (fun c => c.revokedAt.isNone && c.id != excluded)

/-- Response body of DELETE /api/v1/agent/credentials:
`{ success, revokedAt, newActiveId }`. -/
structure RevokeActiveResponse where
  success : Bool
  revokedAt : Nat
  newActiveId : Option String
deriving DecidableEq

/-- Response body of DELETE /api/v1/agent/credentials/:id:
`{ success, revokedAt }` (no `newActiveId` field). -/
structure RevokeByIdResponse where
  success : Bool
  revokedAt : Nat
deriving DecidableEq

/-- DELETE /api/v1/agent/credentials: 404 when there is no active
credential; otherwise mark it revoked, re-elect the first non-revoked
credential with a different id (or none) as active, and report the
revocation time and the new active id. -/
def revokeActive (s : CredentialStore) (now : Nat) :
    Except StoreError (CredentialStore × RevokeActiveResponse) :=
  match getActiveCredentials s with
  | none => .error .notFound
  | some active =>
    let creds := markFirstRevoked s.credentials active.id now
    let newActive := (firstNonRevokedExcept creds active.id).map (fun c => c.id)
    .ok ({ credentials := creds, activeId := newActive },
         { success := true, revokedAt := now, newActiveId := newActive })

/-- DELETE /api/v1/agent/credentials/:id: 404 when the id is unknown;
otherwise mark that credential revoked and, only if it was the active
one, re-elect as in `revokeActive`.  The response reports the revocation
time only. -/
def revokeById (s : CredentialStore) (id : String) (now : Nat) :
    Except StoreError (CredentialStore × RevokeByIdResponse) :=
  match s.credentials.find? (fun c => c.id == id) with
  | none => .error .notFound
  | some cred =>
    let creds := markFirstRevoked s.credentials cred.id now
    let newActive :=
      if s.activeId = some cred.id then
        (firstNonRevokedExcept creds cred.id).map (fun c => c.id)
      else s.activeId
    .ok ({ credentials := creds, activeId := newActive },
         { success := true, revokedAt := now })

/-- The credential-mutating operations of the HTTP surface. -/
inductive StoreOp where
  | post (wallet : WalletInfo) (session : SessionInfo) (now : Nat)
  | activate (id : String)
  | revokeActive (now : Nat)
  | revokeById (id : String) (now : Nat)

/-- Apply one operation; a route that answers with an error status leaves
the store unchanged. -/
def applyOp (s : CredentialStore) : StoreOp → CredentialStore
  | .post w sess now =>
    match postCredentials s w sess now with
    | .ok s2 => s2
    | .error _ => s
  | .activate id =>
    match activateCredential s id with
    | .ok s2 => s2
    | .error _ => s
  | .revokeActive now =>
    match revokeActive s now with
    | .ok (s2, _) => s2
    | .error _ => s
  | .revokeById id now =>
    match revokeById s id now with
    | .ok (s2, _) => s2
    | .error _ => s

/-- The store reached from the empty store by a sequence of operations. -/
def runOps (ops : List StoreOp) : CredentialStore :=
  ops.foldl applyOp emptyStore

/-- A credential is active in a store when it is stored, `activeId` points
at it, and it is not revoked. -/
def activeIn (s : CredentialStore) (c : AgentCredentials) : Prop :=
  c ∈ s.credentials ∧ s.activeId = some c.id ∧ c.revokedAt = none

/-- Spec-side selector, following the words of the specification: the
most-recently-created (largest `createdAt`) non-revoked credential. -/
def mostRecentNonRevoked (l : List AgentCredentials) : Option AgentCredentials :=
  l.foldl
    (fun acc c =>
      if c.revokedAt.isNone then
        match acc with
        | none => some c
        | some b => if c.createdAt > b.createdAt then some c else some b
      else acc)
    none

/-! ## Concrete fixtures used by the theorems -/

/-- The agent limits of the repository's defaults:
`AGENT_DAILY_LIMIT=50`, `AGENT_PER_TX_LIMIT=5`. -/
def demoCfg : SolanaAgentConfig :=
  { keyHash := none, dailyLimitUSD := 50, perTransactionLimitUSD := 5 }

/-- A minimal payment requirement carrying only a USD price hint and a
recipient. -/
def hintReq (p : Rat) : WireRequirement :=
  { scheme := none, network := none, maxAmountRequired := none, asset := none,
    payTo := some "m", description := none,
    extra := some { name := none, priceUSD := some p, resource := none } }

/-- A 402 body whose single requirement prices the resource at `p` USD. -/
def hintTerms (p : Rat) : WireTerms := wireBody [hintReq p]

/-- A requirement with an amount but no `payTo` (the malformed shape of
spec Scenario D). -/
def noPayToReq : WireRequirement :=
  { scheme := none, network := some "solana-devnet", maxAmountRequired := some 1000,
    asset := some "USDC", payTo := none, description := none, extra := none }

/-- A requirement with a recipient but neither `maxAmountRequired` nor a
USD price hint. -/
def noAmountReq : WireRequirement :=
  { scheme := none, network := some "solana-devnet", maxAmountRequired := none,
    asset := some "USDC", payTo := some "m", description := none, extra := none }

/-- Two full requirements that differ only in `description`. -/
def reqDescA : WireRequirement :=
  { scheme := some "exact", network := some "solana-devnet", maxAmountRequired := some 1000,
    asset := some "USDC", payTo := some "m", description := some "first",
    extra := some { name := none, priceUSD := some 2, resource := none } }

def reqDescB : WireRequirement :=
  { scheme := some "exact", network := some "solana-devnet", maxAmountRequired := some 1000,
    asset := some "USDC", payTo := some "m", description := some "second",
    extra := some { name := none, priceUSD := some 2, resource := none } }

/-- Whether any recognized proof-of-payment header is present (truthy). -/
def hasProofHeader (h : ProofHeaders) : Bool :=
  (hdrTruthy h.paymentSignature || hdrTruthy h.xPaymentSignature) ||
    hdrTruthy h.ucpCred || hdrTruthy h.acpToken

def mkWallet (id : String) : WalletInfo :=
  { credentialId := id, publicKeyX := "x", publicKeyY := "y", keyHash := "kh" }

def mkSession : SessionInfo :=
  { publicKey := "pk", encryptedPrivateKey := "enc", keyHash := "skh",
    dailyLimitUSD := 50, perTransactionLimitUSD := 5, expiryHours := 24,
    allowedChains := [1] }

/-- Set a credential, revoke it, then set a credential with the same
wallet identifier again. -/
def opsResurrect : List StoreOp :=
  [ .post (mkWallet "A") mkSession 1, .revokeActive 2, .post (mkWallet "A") mkSession 3 ]

/-- Three credentials created in order A, B, C (C becomes active last). -/
def ops9 : List StoreOp :=
  [ .post (mkWallet "A") mkSession 1, .post (mkWallet "B") mkSession 2,
    .post (mkWallet "C") mkSession 3 ]

/-- Credentials A then B are set, then A is revoked by id. -/
def opsW3 : List StoreOp :=
  [ .post (mkWallet "A") mkSession 1, .post (mkWallet "B") mkSession 2,
    .revokeById "A" 3 ]

/-- The credential record for B after `opsW3`. -/
def credB : AgentCredentials :=
  { id := "B", wallet := mkWallet "B", session := mkSession, createdAt := 2, revokedAt := none }

/-- The credential record for C after `ops9`. -/
def credC : AgentCredentials :=
  { id := "C", wallet := mkWallet "C", session := mkSession, createdAt := 3, revokedAt := none }

/-- The ids of the stored credentials. -/
def idsOf (l : List AgentCredentials) : List String := l.map (fun c => c.id)

/-- The (revoked) credential record for A after `opsW3`. -/
def credA3 : AgentCredentials :=
  { id := "A", wallet := mkWallet "A", session := mkSession, createdAt := 1, revokedAt := some 3 }

/-! ## Theorems -/

/-- Claim C1: across a sequence of payments settled by
`SolanaAgent.x402Fetch` within one daily window, the running recorded
spend must never exceed `dailyLimitUSD`.  The code violates this: with no
Veridex SDK session (the repository default) the daily check compares
each price against the constant configured `dailyLimitUSD` instead of the
remaining budget, so eleven sequential 5-dollar payments under
`perTransactionLimitUSD = 5`, `dailyLimitUSD = 50` all settle and the
recorded spend reaches 55 dollars. -/
theorem C1_daily_window_overspend :
    runSettleAll demoCfg (List.replicate 11 (hintTerms 5)) 0 = (55, true) ∧
    demoCfg.dailyLimitUSD = 50 ∧ ((55 : Rat) > 50) := by
  refine ⟨?_, rfl, by norm_num⟩
  norm_num [runSettleAll, x402Fetch, decodeTerms, hintTerms, hintReq, wireBody,
    selectRequirement, jsOrStr, demoCfg, List.replicate]

/-- Claim C2: when the decoded price of the challenge exceeds
`perTransactionLimitUSD`, the negotiation returns the unpaid
`success = false` result without invoking the signer or retrying, and
the recorded spend is unchanged. -/
theorem C2_per_tx_limit_rejects_before_signing (cfg : SolanaAgentConfig) (spent : Rat)
    (sr : Option Rat) (terms : WireTerms) (signer : SignerOutcome) (retryOk : Bool)
    (retryStatus : Nat) (h : (decodeTerms terms).priceUSD > cfg.perTransactionLimitUSD) :
    x402Fetch cfg spent sr (.challenge terms) signer retryOk retryStatus =
      { result := unpaidResult, signerCalls := 0, retryCalls := 0, totalSpentUSD := spent } := by
  simp [x402Fetch, h]

/-- Witness for C2: a 6-dollar challenge against the default 5-dollar
per-transaction limit is rejected with zero signer calls. -/
theorem C2_witness :
    (decodeTerms (hintTerms 6)).priceUSD > demoCfg.perTransactionLimitUSD ∧
    x402Fetch demoCfg 0 none (.challenge (hintTerms 6)) (.success "sig") true 200 =
      { result := unpaidResult, signerCalls := 0, retryCalls := 0, totalSpentUSD := 0 } := by
  have h : (decodeTerms (hintTerms 6)).priceUSD > demoCfg.perTransactionLimitUSD := by
    norm_num [decodeTerms, hintTerms, hintReq, wireBody, selectRequirement, demoCfg]
  exact ⟨h, C2_per_tx_limit_rejects_before_signing demoCfg 0 none (hintTerms 6)
    (.success "sig") true 200 h⟩

/-- Claim C4 counterexample: with no usable credential or session at all
(`getSessionStatus()` is null), a cheap challenge is not rejected with a
NoActiveCredential error: the negotiation proceeds under the configured
limits, invokes the signer once and settles. -/
theorem C4_counterexample :
    (x402Fetch demoCfg 0 none (.challenge (hintTerms 2)) (.success "sig") true 200).result.success
      = true ∧
    (x402Fetch demoCfg 0 none (.challenge (hintTerms 2)) (.success "sig") true 200).signerCalls
      = 1 := by
  norm_num [x402Fetch, decodeTerms, hintTerms, hintReq, wireBody, selectRequirement,
    jsOrStr, demoCfg]

/-- Claim C4 (amended): the limit checks are evaluated against the
agent's configured `perTransactionLimitUSD` and `dailyLimitUSD` (the
daily remaining falls back to the configured constant when there is no
Veridex session); with no credential the negotiation proceeds with those
configured limits, signing and settling — there is no NoActiveCredential
rejection. -/
theorem C4_no_credential_uses_configured_limits (cfg : SolanaAgentConfig) (spent : Rat)
    (terms : WireTerms) (sig : String) (retryStatus : Nat)
    (h1 : (decodeTerms terms).priceUSD ≤ cfg.perTransactionLimitUSD)
    (h2 : (decodeTerms terms).priceUSD ≤ cfg.dailyLimitUSD)
    (h3 : 0 < (decodeTerms terms).priceUSD) :
    x402Fetch cfg spent none (.challenge terms) (.success sig) true retryStatus =
      { result := { success := true, status := retryStatus, paid := true, attempts := 2 },
        signerCalls := 1, retryCalls := 1,
        totalSpentUSD := spent + (decodeTerms terms).priceUSD } := by
  simp [x402Fetch, not_lt.mpr h1, not_lt.mpr h2, h3]

/-- Witness for the amended C4 at a 2-dollar challenge under the default
limits. -/
theorem C4_witness :
    (decodeTerms (hintTerms 2)).priceUSD ≤ demoCfg.perTransactionLimitUSD ∧
    (decodeTerms (hintTerms 2)).priceUSD ≤ demoCfg.dailyLimitUSD ∧
    0 < (decodeTerms (hintTerms 2)).priceUSD ∧
    x402Fetch demoCfg 7 none (.challenge (hintTerms 2)) (.success "sig") true 200 =
      { result := { success := true, status := 200, paid := true, attempts := 2 },
        signerCalls := 1, retryCalls := 1,
        totalSpentUSD := 7 + (decodeTerms (hintTerms 2)).priceUSD } := by
  have h1 : (decodeTerms (hintTerms 2)).priceUSD ≤ demoCfg.perTransactionLimitUSD := by
    norm_num [decodeTerms, hintTerms, hintReq, wireBody, selectRequirement, demoCfg]
  have h2 : (decodeTerms (hintTerms 2)).priceUSD ≤ demoCfg.dailyLimitUSD := by
    norm_num [decodeTerms, hintTerms, hintReq, wireBody, selectRequirement, demoCfg]
  have h3 : 0 < (decodeTerms (hintTerms 2)).priceUSD := by
    norm_num [decodeTerms, hintTerms, hintReq, wireBody, selectRequirement]
  exact ⟨h1, h2, h3,
    C4_no_credential_uses_configured_limits demoCfg 7 (hintTerms 2) "sig" 200 h1 h2 h3⟩

/-- Claim C5 counterexample: the paywall configured with `priceUSD = 0`
does not fail fast with a configuration error — on a request without any
proof header it issues an ordinary 402 challenge (whose decoded price is
0). -/
theorem C5_counterexample :
    x402Paywall 0 "sol-price" "0xMerchant" "http://localhost:4000/api/v1/market/sol"
        noProofHeaders =
      .challenge 402
        (wireBody [gateRequirement 0 "sol-price" "0xMerchant"
          "http://localhost:4000/api/v1/market/sol"])
        (wireBody [gateRequirement 0 "sol-price" "0xMerchant"
          "http://localhost:4000/api/v1/market/sol"]) ∧
    (decodeTerms (wireBody [gateRequirement 0 "sol-price" "0xMerchant"
        "http://localhost:4000/api/v1/market/sol"])).priceUSD = 0 := by
  constructor
  · rfl
  · norm_num [decodeTerms, wireBody, gateRequirement, selectRequirement, jsOrStr,
      jsRound, tools]

/-- Claim C5 (amended): the gate has no special handling for
`priceUSD <= 0`: a request without a proof header receives a 402
challenge built from that price exactly as for a positive price — it is
never admitted for free, but no configuration error is raised. -/
theorem C5_nonpositive_price_still_challenges (priceUSD : Rat)
    (toolId recipient resource : String) (hdrs : ProofHeaders)
    (hp : priceUSD ≤ 0) (hno : hasProofHeader hdrs = false) :
    x402Paywall priceUSD toolId recipient resource hdrs =
      .challenge 402 (wireBody [gateRequirement priceUSD toolId recipient resource])
                     (wireBody [gateRequirement priceUSD toolId recipient resource]) := by
  have hle : priceUSD ≤ 0 := hp
  simp only [hasProofHeader, Bool.or_eq_false_iff] at hno
  simp [x402Paywall, hno.1.1, hno.1.2, hno.2]

/-- Witness for the amended C5 at price 0 with no proof headers. -/
theorem C5_witness :
    ((0 : Rat) ≤ 0) ∧ hasProofHeader noProofHeaders = false ∧
    x402Paywall 0 "market-analysis" "0xMerchant" "http://localhost:4000/api/v1/analyze"
        noProofHeaders =
      .challenge 402
        (wireBody [gateRequirement 0 "market-analysis" "0xMerchant"
          "http://localhost:4000/api/v1/analyze"])
        (wireBody [gateRequirement 0 "market-analysis" "0xMerchant"
          "http://localhost:4000/api/v1/analyze"]) :=
  ⟨le_refl 0, rfl,
    C5_nonpositive_price_still_challenges 0 "market-analysis" "0xMerchant"
      "http://localhost:4000/api/v1/analyze" noProofHeaders (le_refl 0) rfl⟩

/-- Claim C6 counterexample: a 402 body whose requirement has an amount
but no `payTo` is not treated as a malformed challenge: the recipient
defaults to the string unknown, the signer is invoked once, and the
negotiation settles. -/
theorem C6_counterexample :
    (x402Fetch demoCfg 0 none (.challenge (wireBody [noPayToReq]))
        (.success "sig") true 200).signerCalls = 1 ∧
    (x402Fetch demoCfg 0 none (.challenge (wireBody [noPayToReq]))
        (.success "sig") true 200).result.success = true ∧
    (decodeTerms (wireBody [noPayToReq])).recipient = "unknown" := by
  norm_num [x402Fetch, decodeTerms, wireBody, noPayToReq, selectRequirement, jsOrStr, demoCfg]

/-- Claim C6 (amended): decoding never fails and there is no
MalformedChallenge error.  A missing `payTo` merely defaults the
recipient to the string unknown (and the negotiation proceeds normally);
a requirement whose decoded price is 0 — as when `maxAmountRequired` and
the USD hint are both missing — yields the generic unpaid failure without
any signer call. -/
theorem C6_missing_fields_not_rejected :
    (∀ terms r, selectRequirement terms = some r → r.payTo = none →
      (decodeTerms terms).recipient = "unknown") ∧
    (∀ cfg spent sr terms signer retryOk retryStatus,
      (decodeTerms terms).priceUSD = 0 →
      x402Fetch cfg spent sr (.challenge terms) signer retryOk retryStatus =
        { result := unpaidResult, signerCalls := 0, retryCalls := 0,
          totalSpentUSD := spent }) := by
  constructor
  · intro terms r hsel hpt
    simp [decodeTerms, hsel, hpt, jsOrStr]
  · intro cfg spent sr terms signer retryOk retryStatus h
    simp only [x402Fetch, h]
    split_ifs <;> first
      | rfl
      | exact absurd (by assumption : (0:Rat) > 0) (by norm_num)

/-- Witness for the amended C6: the `payTo`-less requirement decodes to
recipient unknown, and a requirement with no amount and no USD hint
produces the generic unpaid failure with zero signer calls. -/
theorem C6_witness :
    (decodeTerms (wireBody [noPayToReq])).recipient = "unknown" ∧
    x402Fetch demoCfg 3 none (.challenge (wireBody [noAmountReq])) (.success "sig") true 200 =
      { result := unpaidResult, signerCalls := 0, retryCalls := 0, totalSpentUSD := 3 } :=
  ⟨C6_missing_fields_not_rejected.1 (wireBody [noPayToReq]) noPayToReq rfl rfl,
   C6_missing_fields_not_rejected.2 demoCfg 3 none (wireBody [noAmountReq])
     (.success "sig") true 200 (by norm_num [decodeTerms, wireBody, noAmountReq,
       selectRequirement])⟩

/-- Claim C8 counterexample: a signing failure and a 402-on-retry produce
byte-for-byte identical returned results (the generic unpaid failure),
so the negotiator does not report distinct SigningFailed and
PaymentRejectedByServer outcomes as the claim states. -/
theorem C8_counterexample :
    (x402Fetch demoCfg 0 none (.challenge (hintTerms 2)) (.failure "boom") true 200).result =
    (x402Fetch demoCfg 0 none (.challenge (hintTerms 2)) (.success "sig") false 402).result := by
  norm_num [x402Fetch, decodeTerms, hintTerms, hintReq, wireBody, selectRequirement, demoCfg]

/-- Claim C8 (amended): per negotiation the signer is invoked at most
once and the original request is retried at most once; a signing failure
is terminal with no retry, and a non-OK (e.g. 402) retry is terminal —
but both are reported as the same generic unpaid `success = false`
result, not as typed SigningFailed / PaymentRejectedByServer errors. -/
theorem C8_single_sign_single_retry (cfg : SolanaAgentConfig) (spent : Rat) (sr : Option Rat)
    (initial : InitialResponse) (signer : SignerOutcome) (retryOk : Bool) (retryStatus : Nat) :
    (x402Fetch cfg spent sr initial signer retryOk retryStatus).signerCalls ≤ 1 ∧
    (x402Fetch cfg spent sr initial signer retryOk retryStatus).retryCalls ≤ 1 ∧
    (∀ terms msg, initial = .challenge terms → signer = .failure msg →
      (x402Fetch cfg spent sr initial signer retryOk retryStatus).result = unpaidResult ∧
      (x402Fetch cfg spent sr initial signer retryOk retryStatus).retryCalls = 0) ∧
    (∀ terms, initial = .challenge terms → retryOk = false →
      (x402Fetch cfg spent sr initial signer retryOk retryStatus).result.success = false) := by
  cases initial <;> cases signer <;> simp only [x402Fetch] <;>
    (try split_ifs) <;> simp_all [unpaidResult]

/-- Witness for the amended C8: a failing signer yields the terminal
unpaid result with no retry, and a non-OK retry yields a terminal
unsuccessful result. -/
theorem C8_witness :
    ((x402Fetch demoCfg 0 none (.challenge (hintTerms 3)) (.failure "down") true 200).result
        = unpaidResult ∧
     (x402Fetch demoCfg 0 none (.challenge (hintTerms 3)) (.failure "down") true 200).retryCalls
        = 0) ∧
    (x402Fetch demoCfg 0 none (.challenge (hintTerms 3)) (.success "sig") false 402).result.success
        = false :=
  ⟨(C8_single_sign_single_retry demoCfg 0 none (.challenge (hintTerms 3)) (.failure "down")
      true 200).2.2.1 (hintTerms 3) "down" rfl rfl,
   (C8_single_sign_single_retry demoCfg 0 none (.challenge (hintTerms 3)) (.success "sig")
      false 402).2.2.2 (hintTerms 3) rfl rfl⟩

/-- Claim C7 counterexample: decoding is not a left inverse of encoding —
two distinct requirements that differ only in `description` decode to the
same internal terms, so `decode(encode(r)) == r` cannot hold. -/
theorem C7_counterexample :
    decodeTerms (wireBody [reqDescA]) = decodeTerms (wireBody [reqDescB]) ∧
    reqDescA ≠ reqDescB := by
  constructor
  · rfl
  · simp [reqDescA, reqDescB]

/-- Claim C7 (amended): decoding normalizes both the
`paymentRequirements[]` and the `accepts[]` wire shapes of a
gate-encoded requirement to the same internal terms; those terms recover
exactly the payment-relevant fields of the requirement (the USD price,
`payTo`, `network`, `asset`, `maxAmountRequired`), while `scheme` and
`description` are dropped rather than round-tripped; and the
PAYMENT-REQUIRED header the gate emits carries the same terms as the
JSON body. -/
theorem C7_decode_projects_encoded_requirement (priceUSD : Rat)
    (toolId recipient resource : String) (hr : recipient ≠ "") :
    decodeTerms (wireBody [gateRequirement priceUSD toolId recipient resource]) =
      decodeTerms (wireAccepts [gateRequirement priceUSD toolId recipient resource]) ∧
    decodeTerms (wireBody [gateRequirement priceUSD toolId recipient resource]) =
      { priceUSD := priceUSD, recipient := recipient, network := "solana-devnet",
        asset := "USDC", maxAmount := jsRound (priceUSD * 1000000) } ∧
    (∀ hdrs, hasProofHeader hdrs = false →
      x402Paywall priceUSD toolId recipient resource hdrs =
        .challenge 402 (wireBody [gateRequirement priceUSD toolId recipient resource])
                       (wireBody [gateRequirement priceUSD toolId recipient resource])) := by
  refine ⟨rfl, ?_, ?_⟩
  · by_cases hp : priceUSD = 0
    · subst hp
      simp [decodeTerms, wireBody, gateRequirement, selectRequirement, jsOrStr, hr]
      norm_num [jsRound]
    · simp [decodeTerms, wireBody, gateRequirement, selectRequirement, jsOrStr, hr, hp]
  · intro hdrs hno
    simp only [hasProofHeader, Bool.or_eq_false_iff] at hno
    simp [x402Paywall, hno.1.1, hno.1.2, hno.2]

/-- Witness for the amended C7 at the merchant's analysis price. -/
theorem C7_witness :
    ("0xMerchant" : String) ≠ "" ∧
    decodeTerms (wireBody [gateRequirement (5/1000) "market-analysis" "0xMerchant"
        "http://localhost:4000/api/v1/analyze"]) =
      { priceUSD := 5/1000, recipient := "0xMerchant", network := "solana-devnet",
        asset := "USDC", maxAmount := jsRound ((5/1000) * 1000000) } :=
  ⟨by decide,
   (C7_decode_projects_encoded_requirement (5/1000) "market-analysis" "0xMerchant"
     "http://localhost:4000/api/v1/analyze" (by decide)).2.1⟩

/-! ### Helper lemmas about the credential store -/

lemma mem_idsOf_upsertById {l : List AgentCredentials} {cred : AgentCredentials} {x : String}
    (h : x ∈ idsOf (upsertById l cred)) : x ∈ idsOf l ∨ x = cred.id := by
  induction l with
  | nil => simpa [upsertById, idsOf] using h
  | cons c cs ih =>
    cases hc : c.id == cred.id with
    | true =>
      simp only [upsertById, hc, if_true, idsOf, List.map_cons, List.mem_cons] at h ⊢
      rcases h with h | h
      · exact Or.inr h
      · exact Or.inl (Or.inr h)
    | false =>
      simp only [upsertById, hc, Bool.false_eq_true, if_false, idsOf, List.map_cons,
        List.mem_cons] at h ⊢
      rcases h with h | h
      · exact Or.inl (Or.inl h)
      · rcases ih h with h2 | h2
        · exact Or.inl (Or.inr h2)
        · exact Or.inr h2

lemma idsOf_upsertById_nodup {l : List AgentCredentials} {cred : AgentCredentials}
    (h : (idsOf l).Nodup) : (idsOf (upsertById l cred)).Nodup := by
  induction l with
  | nil => simp [upsertById, idsOf]
  | cons c cs ih =>
    simp only [idsOf, List.map_cons, List.nodup_cons] at h
    cases hc : c.id == cred.id with
    | true =>
      have hceq : c.id = cred.id := by simpa using hc
      simp only [upsertById, hc, if_true, idsOf, List.map_cons, List.nodup_cons]
      exact ⟨hceq ▸ h.1, h.2⟩
    | false =>
      have hcne : c.id ≠ cred.id := by simpa using hc
      simp only [upsertById, hc, Bool.false_eq_true, if_false, idsOf, List.map_cons,
        List.nodup_cons]
      refine ⟨fun hmem => ?_, ih h.2⟩
      rcases mem_idsOf_upsertById hmem with h2 | h2
      · exact h.1 h2
      · exact hcne h2

lemma idsOf_markFirstRevoked (l : List AgentCredentials) (id : String) (now : Nat) :
    idsOf (markFirstRevoked l id now) = idsOf l := by
  induction l with
  | nil => rfl
  | cons c cs ih =>
    cases hc : c.id == id with
    | true => simp [markFirstRevoked, hc, idsOf]
    | false =>
      simp only [markFirstRevoked, hc, Bool.false_eq_true, if_false, idsOf,
        List.map_cons] at ih ⊢
      rw [ih]

lemma nodup_ids_applyOp {s : CredentialStore} (op : StoreOp)
    (h : (idsOf s.credentials).Nodup) : (idsOf (applyOp s op).credentials).Nodup := by
  cases op with
  | post w sess now =>
    simp only [applyOp, postCredentials]
    split_ifs
    · exact h
    · exact idsOf_upsertById_nodup h
  | activate id =>
    simp only [applyOp, activateCredential]
    cases hf : s.credentials.find? (fun c => c.id == id) with
    | none => exact h
    | some c =>
      by_cases hr : c.revokedAt.isSome = true
      · simpa [hr] using h
      · simpa [hr] using h
  | revokeActive now =>
    simp only [applyOp, revokeActive]
    cases ha : getActiveCredentials s with
    | none => exact h
    | some a => simpa [idsOf_markFirstRevoked] using h
  | revokeById id now =>
    simp only [applyOp, revokeById]
    cases hf : s.credentials.find? (fun c => c.id == id) with
    | none => exact h
    | some c => simpa [idsOf_markFirstRevoked] using h

lemma nodup_ids_foldl (ops : List StoreOp) (s : CredentialStore)
    (h : (idsOf s.credentials).Nodup) :
    (idsOf (ops.foldl applyOp s).credentials).Nodup := by
  induction ops generalizing s with
  | nil => exact h
  | cons op rest ih => exact ih (applyOp s op) (nodup_ids_applyOp op h)

lemma nodup_ids_runOps (ops : List StoreOp) : (idsOf (runOps ops).credentials).Nodup :=
  nodup_ids_foldl ops emptyStore (by simp [emptyStore, idsOf])

lemma find?_markFirstRevoked (l : List AgentCredentials) (id : String) (now : Nat) :
    (markFirstRevoked l id now).find? (fun c => c.id == id) =
      (l.find? (fun c => c.id == id)).map (fun c => { c with revokedAt := some now }) := by
  induction l with
  | nil => rfl
  | cons c cs ih =>
    cases hc : c.id == id with
    | true => simp [markFirstRevoked, hc, List.find?_cons]
    | false => simp [markFirstRevoked, hc, List.find?_cons, ih]

lemma getActive_spec {s : CredentialStore} {a : AgentCredentials}
    (h : getActiveCredentials s = some a) :
    s.activeId = some a.id ∧
    s.credentials.find? (fun c => c.id == a.id) = some a ∧
    a.revokedAt = none := by
  obtain ⟨creds, aid⟩ := s
  cases aid with
  | none => simp [getActiveCredentials] at h
  | some aid =>
    simp only [getActiveCredentials] at h
    cases hf : creds.find? (fun c => c.id == aid) with
    | none => rw [hf] at h; simp at h
    | some c =>
      rw [hf] at h
      by_cases hr : c.revokedAt.isSome = true
      · simp [hr] at h
      · simp [hr] at h
        subst h
        have hid : c.id = aid := by simpa using List.find?_some hf
        subst hid
        exact ⟨rfl, hf, Option.not_isSome_iff_eq_none.mp hr⟩

lemma firstNonRevokedExcept_ne {l : List AgentCredentials} {ex : String}
    {c : AgentCredentials} (h : firstNonRevokedExcept l ex = some c) :
    c.id ≠ ex ∧ c.revokedAt = none := by
  have hp := List.find?_some h
  simp only [Bool.and_eq_true, bne_iff_ne, Option.isNone_iff_eq_none] at hp
  exact ⟨hp.2, hp.1⟩

/-- Claim C3 counterexample: after setting credential A, revoking it via
revoke-active (A is recorded revoked at time 2), a second upsert keyed by
the same wallet identifier makes the credential with id A active again —
a previously revoked credential identifier returns to active, which the
claim forbids. -/
theorem C3_counterexample :
    ((runOps (opsResurrect.take 2)).credentials.find? (fun c => c.id == "A")).map
        (fun c => c.revokedAt) = some (some 2) ∧
    (getActiveCredentials (runOps opsResurrect)).map (fun c => c.id) = some "A" := by
  decide

/-- Claim C3 (amended): in every store reachable from the empty store,
credential ids are unique and at most one credential is active at any
time, and `activate(id)` fails with CredentialRevoked on a revoked
credential leaving the store unchanged — but an upsert keyed by the same
wallet identifier replaces a revoked credential with a fresh non-revoked
record and makes it active again. -/
theorem C3_revocation_invariants (ops : List StoreOp) :
    (idsOf (runOps ops).credentials).Nodup ∧
    (∀ c1 c2, activeIn (runOps ops) c1 → activeIn (runOps ops) c2 → c1 = c2) ∧
    (∀ id c, (runOps ops).credentials.find? (fun d => d.id == id) = some c →
      c.revokedAt.isSome = true →
      activateCredential (runOps ops) id = .error .credentialRevoked ∧
      applyOp (runOps ops) (.activate id) = runOps ops) := by
  refine ⟨nodup_ids_runOps ops, ?_, ?_⟩
  · intro c1 c2 h1 h2
    obtain ⟨m1, ha1, -⟩ := h1
    obtain ⟨m2, ha2, -⟩ := h2
    have hid : c1.id = c2.id := Option.some_injective _ (ha1.symm.trans ha2)
    exact List.inj_on_of_nodup_map (nodup_ids_runOps ops) m1 m2 hid
  · intro id c hf hrev
    constructor
    · simp [activateCredential, hf, hrev]
    · simp [applyOp, activateCredential, hf, hrev]

/-- Witness for the amended C3: after `opsW3` (set A, set B, revoke A by
id) the unique active credential is B, and activating the revoked A
fails and leaves the store unchanged. -/
theorem C3_witness :
    credB = credB ∧
    activateCredential (runOps opsW3) "A" = .error .credentialRevoked ∧
    applyOp (runOps opsW3) (.activate "A") = runOps opsW3 :=
  have hact : activeIn (runOps opsW3) credB := by
    show credB ∈ (runOps opsW3).credentials ∧ _ ∧ _
    exact ⟨by decide, by decide, by decide⟩
  have hrest := (C3_revocation_invariants opsW3).2.2 "A" credA3 (by decide) (by decide)
  ⟨(C3_revocation_invariants opsW3).2.1 credB credB hact hact, hrest.1, hrest.2⟩

/-- Claim C9 counterexample: with credentials A, B, C created in that
order and C active, revoking the active credential elects A — the first
stored non-revoked credential — as the new active one, while the
most-recently-created non-revoked credential is B, which the claim would
require. -/
theorem C9_counterexample :
    (revokeActive (runOps ops9) 4).toOption.map
      (fun p => (p.2.newActiveId, (mostRecentNonRevoked p.1.credentials).map (fun c => c.id))) =
      some (some "A", some "B") ∧ ("A" : String) ≠ "B" := by
  decide

/-- Claim C9 (amended): revoking the active credential records its
revocation time, re-elects the FIRST-STORED (earliest-created, in
storage order) non-revoked other credential as active (or none), and the
revoke-active response reports the revocation time and the new active
id; revoking a specific credential that is active re-elects the same way
but its response reports only the revocation time. -/
theorem C9_revocation_reelects_first_stored :
    (∀ s a now, getActiveCredentials s = some a →
      ∃ s2 resp, revokeActive s now = .ok (s2, resp) ∧
        resp.revokedAt = now ∧
        resp.newActiveId = s2.activeId ∧
        s2.credentials.find? (fun c => c.id == a.id) = some { a with revokedAt := some now } ∧
        s2.activeId = (firstNonRevokedExcept s2.credentials a.id).map (fun c => c.id) ∧
        s2.activeId ≠ some a.id ∧
        idsOf s2.credentials = idsOf s.credentials) ∧
    (∀ s c id now, s.credentials.find? (fun d => d.id == id) = some c →
      s.activeId = some c.id →
      ∃ s2 resp, revokeById s id now = .ok (s2, resp) ∧
        resp.revokedAt = now ∧
        s2.activeId = (firstNonRevokedExcept s2.credentials c.id).map (fun d => d.id)) := by
  constructor
  · intro s a now h
    obtain ⟨hA, hf, hrev⟩ := getActive_spec h
    refine ⟨{ credentials := markFirstRevoked s.credentials a.id now,
              activeId := (firstNonRevokedExcept (markFirstRevoked s.credentials a.id now)
                a.id).map (fun c => c.id) },
            { success := true, revokedAt := now,
              newActiveId := (firstNonRevokedExcept (markFirstRevoked s.credentials a.id now)
                a.id).map (fun c => c.id) },
            ?_, rfl, rfl, ?_, rfl, ?_, ?_⟩
    · unfold revokeActive
      rw [h]
    · rw [find?_markFirstRevoked, hf]
      rfl
    · cases hx : firstNonRevokedExcept (markFirstRevoked s.credentials a.id now) a.id with
      | none => simp
      | some c =>
        have := (firstNonRevokedExcept_ne hx).1
        simp [this]
    · exact idsOf_markFirstRevoked s.credentials a.id now
  · intro s c id now hf hA
    have hid : c.id = id := by simpa using List.find?_some hf
    subst hid
    refine ⟨{ credentials := markFirstRevoked s.credentials c.id now,
              activeId := (firstNonRevokedExcept (markFirstRevoked s.credentials c.id now)
                c.id).map (fun d => d.id) },
            { success := true, revokedAt := now }, ?_, rfl, rfl⟩
    unfold revokeById
    rw [hf]
    simp [hA]

/-- Witness for the amended C9 on the concrete three-credential store. -/
theorem C9_witness :
    getActiveCredentials (runOps ops9) = some credC ∧
    (∃ s2 resp, revokeActive (runOps ops9) 4 = .ok (s2, resp) ∧
      resp.revokedAt = 4 ∧
      resp.newActiveId = s2.activeId ∧
      s2.credentials.find? (fun c => c.id == credC.id) =
        some { credC with revokedAt := some 4 } ∧
      s2.activeId = (firstNonRevokedExcept s2.credentials credC.id).map (fun c => c.id) ∧
      s2.activeId ≠ some credC.id ∧
      idsOf s2.credentials = idsOf (runOps ops9).credentials) :=
  ⟨by decide, C9_revocation_reelects_first_stored.1 (runOps ops9) credC 4 (by decide)⟩

end VeridexPay
